import Mathlib

/-!
Verification of the Multi-Source Measurement Fusion Engine
(`src/backend/services/data_fusion_engine.py`, class `DataFusionEngine`).

Numeric values carried by room records are embedded as exact rationals
(`ℚ`); the confidence estimator, whose value genuinely involves a square
root, is embedded over the reals (`ℝ`).  Python dictionary lookups with
`.get` become `Option` fields; Python truthiness on a numeric field
(`if dims.get('length_mm'):`) is "present and nonzero".
-/

namespace DataFusion

/-- A candidate room record as produced by a source adapter.  Mirrors the
room dictionaries consumed by `data_fusion_engine.py`: every field the
engine reads through `.get` is an `Option`.  The nested `dimensions`
dictionary is flattened into the four numeric fields. -/
structure Room where
  id : Option String
  name : Option String
  type : Option String
  length_mm : Option ℚ
  width_mm : Option ℚ
  height_mm : Option ℚ
  area_sqm : Option ℚ
  doors : List String
  windows : List String
deriving DecidableEq, Repr

/-- One member of a match group: the pair `source tag, room data` built at
lines 118, 123, 128, 135, 139 and 146 of `data_fusion_engine.py`. -/
structure Member where
  source : String
  data : Room
deriving DecidableEq, Repr

/-- The per-source room lists handed to `match_rooms_across_sources`
(the `all_rooms` dictionary built by `extract_all_rooms`). -/
structure AllRooms where
  floor_plan : List Room
  ar_measurement : List Room
  voice_input : List Room
  photos : List Room
deriving DecidableEq, Repr

/-- Similarity score of one candidate against the reference room:
lines 162-174 of `find_best_match`.  `0.6` for an equal, known type;
up to `0.4` for areas within 30 percent of each other. -/
def match_score (ref_type : String) (ref_area : ℚ) (candidate : Room) : ℚ :=
  let type_score : ℚ :=
    if candidate.type = some ref_type ∧ ref_type ≠ "unknown" then 0.6 else 0
  let cand_area := candidate.area_sqm.getD 0
  let dim_score : ℚ :=
    if 0 < ref_area ∧ 0 < cand_area then
      let area_diff := |ref_area - cand_area| / max ref_area cand_area
      if area_diff < 0.3 then 0.4 * (1 - area_diff) else 0
    else 0
  type_score + dim_score

/-- `DataFusionEngine.find_best_match` (lines 150-184).  Scans the
candidates keeping the strictly best score (ties keep the first seen,
because the update condition is `score > best_score`), and returns the
best candidate only when its score exceeds `0.4`. -/
def find_best_match (reference_room : Room) (candidate_rooms : List Room) :
    Option Room :=
  if candidate_rooms = [] then none
  else
    let ref_type := reference_room.type.getD "unknown"
    let ref_area := reference_room.area_sqm.getD 0
    let best := candidate_rooms.foldl
      (fun acc candidate =>
        let score := match_score ref_type ref_area candidate
        if acc.2 < score then (some candidate, score) else acc)
      ((none : Option Room), (0 : ℚ))
    if 0.4 < best.2 then best.1 else none

/-- The group built for one floor-plan anchor room (lines 117-130):
the anchor member, then an `ar_measurement` match if one is found,
then a `voice_input` match if one is found. -/
def fpGroup (R : AllRooms) (fp_room : Room) : List Member :=
  let group := [Member.mk "floor_plan" fp_room]
  let group :=
    match find_best_match fp_room R.ar_measurement with
    | some ar_match => group ++ [Member.mk "ar_measurement" ar_match]
    | none => group
  match find_best_match fp_room R.voice_input with
  | some voice_match => group ++ [Member.mk "voice_input" voice_match]
  | none => group

/-- The group built for one AR anchor room when there is no floor plan
(lines 134-141): the anchor member, then a `voice_input` match if found. -/
def arGroup (R : AllRooms) (ar_room : Room) : List Member :=
  let group := [Member.mk "ar_measurement" ar_room]
  match find_best_match ar_room R.voice_input with
  | some voice_match => group ++ [Member.mk "voice_input" voice_match]
  | none => group

/-- `DataFusionEngine.match_rooms_across_sources` (lines 108-148).
Floor plan anchors if non-empty; otherwise AR anchors; otherwise each
voice room becomes a singleton group.  The `photos` list is never read. -/
def match_rooms_across_sources (R : AllRooms) : List (List Member) :=
  if R.floor_plan ≠ [] then
    R.floor_plan.map (fpGroup R)
  else if R.ar_measurement ≠ [] then
    R.ar_measurement.map (arGroup R)
  else
    R.voice_input.map (fun voice_room => [Member.mk "voice_input" voice_room])

/-- All members drawn from source `s` across all produced groups: the
"matched candidates per source" of the matcher-symmetry claim. -/
def membersFromSource (s : String) (groups : List (List Member)) :
    List Member :=
  (groups.map (fun g => g.filter (fun m => m.source == s))).flatten

/-- A room with no recorded fields at all, used to build small inputs. -/
def blankRoom : Room :=
  { id := none, name := none, type := none, length_mm := none,
    width_mm := none, height_mm := none, area_sqm := none,
    doors := [], windows := [] }

/-- First floor-plan bedroom of the candidate-reuse scenario. -/
def fpBedroomA : Room := { blankRoom with id := some "fp1", type := some "bedroom" }

/-- Second floor-plan bedroom of the candidate-reuse scenario. -/
def fpBedroomB : Room := { blankRoom with id := some "fp2", type := some "bedroom" }

/-- The single AR bedroom that both anchors end up matching. -/
def arBedroomC : Room := { blankRoom with id := some "ar1", type := some "bedroom" }

/-- Input with two floor-plan bedrooms and one AR bedroom. -/
def reuseInput : AllRooms :=
  { floor_plan := [fpBedroomA, fpBedroomB],
    ar_measurement := [arBedroomC],
    voice_input := [], photos := [] }

/-- A lone photos room, for the photos-only input. -/
def photoRoomP : Room := { blankRoom with id := some "ph1", type := some "kitchen" }

/-- Input where only the `photos` source is non-empty. -/
def photosOnlyInput : AllRooms :=
  { floor_plan := [], ar_measurement := [], voice_input := [],
    photos := [photoRoomP] }

/-- Helper: the four concrete shapes a floor-plan anchored group can take. -/
theorem fpGroup_cases (R : AllRooms) (r : Room) :
    fpGroup R r = [Member.mk "floor_plan" r] ∨
    (∃ a, fpGroup R r = [Member.mk "floor_plan" r, Member.mk "ar_measurement" a]) ∨
    (∃ v, fpGroup R r = [Member.mk "floor_plan" r, Member.mk "voice_input" v]) ∨
    (∃ a v, fpGroup R r =
      [Member.mk "floor_plan" r, Member.mk "ar_measurement" a,
       Member.mk "voice_input" v]) := by
  unfold fpGroup
  rcases h1 : find_best_match r R.ar_measurement with _ | a <;>
    rcases h2 : find_best_match r R.voice_input with _ | v
  · exact Or.inl rfl
  · exact Or.inr (Or.inr (Or.inl ⟨v, rfl⟩))
  · exact Or.inr (Or.inl ⟨a, rfl⟩)
  · exact Or.inr (Or.inr (Or.inr ⟨a, v, rfl⟩))

/-- Helper: the two concrete shapes an AR anchored group can take. -/
theorem arGroup_cases (R : AllRooms) (r : Room) :
    arGroup R r = [Member.mk "ar_measurement" r] ∨
    (∃ v, arGroup R r = [Member.mk "ar_measurement" r, Member.mk "voice_input" v]) := by
  unfold arGroup
  rcases h : find_best_match r R.voice_input with _ | v
  · exact Or.inl rfl
  · exact Or.inr ⟨v, rfl⟩

/-- Concrete evaluation of the matcher on `reuseInput`: both floor-plan
bedrooms bind the same AR candidate, because `find_best_match` never
removes a matched candidate from the pool. -/
theorem reuseInput_match_eval :
    match_rooms_across_sources reuseInput =
      [[Member.mk "floor_plan" fpBedroomA, Member.mk "ar_measurement" arBedroomC],
       [Member.mk "floor_plan" fpBedroomB, Member.mk "ar_measurement" arBedroomC]] := by
  simp [match_rooms_across_sources, fpGroup, find_best_match, match_score,
    reuseInput, fpBedroomA, fpBedroomB, arBedroomC, blankRoom]
  norm_num

/-- C1 (counterexample): the matcher does not claim candidates.  With two
floor-plan bedrooms and a single AR bedroom, the same AR candidate is bound
to both match groups, so the total of matched AR candidates is 2 while the
AR source supplied only 1 — refuting "each candidate is bound to at most
one MatchGroup" and the per-source count bound. -/
theorem c1_counterexample :
    (membersFromSource "ar_measurement"
      (match_rooms_across_sources reuseInput)).length = 2 ∧
    reuseInput.ar_measurement.length = 1 ∧
    membersFromSource "ar_measurement" (match_rooms_across_sources reuseInput) =
      [Member.mk "ar_measurement" arBedroomC, Member.mk "ar_measurement" arBedroomC] := by
  rw [reuseInput_match_eval]
  refine ⟨by decide, by decide, by decide⟩

/-- C1 (amended): within every single MatchGroup each source contributes at
most one candidate — the list of source tags of any produced group has no
duplicates.  (Across groups a candidate may be reused, as the
counterexample shows.) -/
theorem c1_group_sources_nodup (R : AllRooms) :
    ∀ g ∈ match_rooms_across_sources R, (g.map Member.source).Nodup := by
  intro g hg
  unfold match_rooms_across_sources at hg
  split_ifs at hg with h1 h2
  · rcases List.mem_map.mp hg with ⟨r, _, rfl⟩
    rcases fpGroup_cases R r with h | ⟨a, h⟩ | ⟨v, h⟩ | ⟨a, v, h⟩ <;>
      rw [h] <;> simp
  · rcases List.mem_map.mp hg with ⟨r, _, rfl⟩
    rcases arGroup_cases R r with h | ⟨v, h⟩ <;> rw [h] <;> simp
  · rcases List.mem_map.mp hg with ⟨r, _, rfl⟩
    simp

/-- C1 (witness): the no-duplicate-sources invariant evaluated on the
concrete reuse input's first group. -/
theorem c1_group_sources_nodup_witness :
    [Member.mk "floor_plan" fpBedroomA, Member.mk "ar_measurement" arBedroomC] ∈
      match_rooms_across_sources reuseInput ∧
    ((([Member.mk "floor_plan" fpBedroomA,
        Member.mk "ar_measurement" arBedroomC]).map Member.source).Nodup) :=
  ⟨by rw [reuseInput_match_eval]; decide,
   c1_group_sources_nodup reuseInput
     [Member.mk "floor_plan" fpBedroomA, Member.mk "ar_measurement" arBedroomC]
     (by rw [reuseInput_match_eval]; decide)⟩

/-- C3 (counterexample): when only the `photos` source is non-empty the
matcher returns no groups at all — the photos room does not become a
singleton MatchGroup, refuting the claim's anchor order and fallback. -/
theorem c3_counterexample :
    match_rooms_across_sources photosOnlyInput = [] ∧
    photosOnlyInput.photos.length = 1 := by
  refine ⟨by decide, by decide⟩

/-- C3 (amended): the anchor is the first non-empty source in the priority
floor_plan, then ar_measurement, then voice_input; with a floor-plan anchor
there is one group per floor-plan room, each headed by that floor-plan
member; with an AR anchor likewise; with neither, each voice room becomes a
singleton group; and no member of any group ever comes from `photos`. -/
theorem c3_anchor_priority (R : AllRooms) :
    (R.floor_plan ≠ [] →
      (match_rooms_across_sources R).length = R.floor_plan.length ∧
      ∀ g ∈ match_rooms_across_sources R,
        ∃ r t, g = Member.mk "floor_plan" r :: t) ∧
    (R.floor_plan = [] → R.ar_measurement ≠ [] →
      (match_rooms_across_sources R).length = R.ar_measurement.length ∧
      ∀ g ∈ match_rooms_across_sources R,
        ∃ r t, g = Member.mk "ar_measurement" r :: t) ∧
    (R.floor_plan = [] → R.ar_measurement = [] →
      match_rooms_across_sources R =
        R.voice_input.map (fun v => [Member.mk "voice_input" v])) ∧
    (∀ g ∈ match_rooms_across_sources R, ∀ m ∈ g, m.source ≠ "photos") := by
  refine ⟨?_, ?_, ?_, ?_⟩
  · intro h
    constructor
    · simp [match_rooms_across_sources, h]
    · intro g hg
      simp only [match_rooms_across_sources, if_pos h] at hg
      rcases List.mem_map.mp hg with ⟨r, _, rfl⟩
      rcases fpGroup_cases R r with hc | ⟨a, hc⟩ | ⟨v, hc⟩ | ⟨a, v, hc⟩ <;>
        exact ⟨r, _, hc⟩
  · intro h1 h2
    constructor
    · simp [match_rooms_across_sources, h1, h2]
    · intro g hg
      simp only [match_rooms_across_sources, h1, if_pos h2] at hg
      simp only [ne_eq, not_true_eq_false, if_false, reduceIte] at hg
      rcases List.mem_map.mp hg with ⟨r, _, rfl⟩
      rcases arGroup_cases R r with hc | ⟨v, hc⟩ <;> exact ⟨r, _, hc⟩
  · intro h1 h2
    simp [match_rooms_across_sources, h1, h2]
  · intro g hg m hm
    unfold match_rooms_across_sources at hg
    split_ifs at hg with h1 h2
    · rcases List.mem_map.mp hg with ⟨r, _, rfl⟩
      rcases fpGroup_cases R r with hc | ⟨a, hc⟩ | ⟨v, hc⟩ | ⟨a, v, hc⟩ <;>
        rw [hc] at hm <;> fin_cases hm <;> simp
    · rcases List.mem_map.mp hg with ⟨r, _, rfl⟩
      rcases arGroup_cases R r with hc | ⟨v, hc⟩ <;> rw [hc] at hm <;>
        fin_cases hm <;> simp
    · rcases List.mem_map.mp hg with ⟨r, _, rfl⟩
      fin_cases hm <;> simp

/-- Mean of a list of samples, `np.mean` / the mean inside `stats.zscore`. -/
def listMean {α : Type} [Field α] (xs : List α) : α := xs.sum / xs.length

/-- Population variance of a list of samples (`np.var`, and the square of
the standard deviation used by `stats.zscore`, both with `ddof = 0`). -/
def listVar {α : Type} [Field α] (xs : List α) : α :=
  (xs.map (fun x => (x - listMean xs) ^ 2)).sum / xs.length

/-- Keep the entries of `xs` whose mask bit is true:
`[l for l, m in zip(xs, mask) if m]` (zip truncates to the shorter list). -/
def maskFilter {α : Type} (xs : List α) (mask : List Bool) : List α :=
  (xs.zip mask).filterMap (fun p => if p.2 then some p.1 else none)

/-- `DataFusionEngine.remove_outliers` (lines 284-302).  Fewer than 3
samples pass unchanged.  Otherwise scipy's z-scores of the lengths drive a
mask applied to all four lists.  scipy computes
`z_i = (x_i - mean) / std` with the population standard deviation; when
`std = 0` (equivalently the variance is 0) this division is `0 / 0 = NaN`,
and `NaN < 2` is false, so no index survives.  When `std > 0`,
`|z_i| < 2` holds iff `(x_i - mean)^2 < 4 * variance`, which is how the
square root is avoided in this exact-arithmetic embedding. -/
def remove_outliers (lengths widths heights weights : List ℚ) :
    List ℚ × List ℚ × List ℚ × List ℚ :=
  if lengths.length < 3 then (lengths, widths, heights, weights)
  else
    let mean := listMean lengths
    let variance := listVar lengths
    let mask := lengths.map (fun x =>
      if variance = 0 then false else decide ((x - mean) ^ 2 < 4 * variance))
    (maskFilter lengths mask, maskFilter widths mask,
     maskFilter heights mask, maskFilter weights mask)

/-- C2: on three all-equal length samples (standard deviation 0) the code
returns four EMPTY lists, not the inputs unchanged: scipy's z-scores of a
constant array are NaN, `NaN < 2` is false, and the mask drops every
sample.  This contradicts the claim (and the code's own comment, which
says values within 2 standard deviations are kept). -/
theorem c2_constant_samples_all_dropped :
    remove_outliers [5, 5, 5] [4, 4, 4] [3, 3, 3] [0.7, 0.9, 0.5] =
      ([], [], [], []) ∧
    ([5, 5, 5] : List ℚ).length = 3 := by
  constructor
  · norm_num [remove_outliers, listMean, listVar, maskFilter]
  · norm_num

/-- C6: the outlier filter CAN eliminate every sample of a non-empty
input: four equal samples (non-empty, at least 3) come back as empty
lists, refuting "the filter never returns fewer than one sample". -/
theorem c6_nonempty_input_all_dropped :
    (remove_outliers [7, 7, 7, 7] [1, 1, 1, 1] [1, 1, 1, 1]
      [0.9, 0.7, 0.6, 0.5]).1 = [] ∧
    ([7, 7, 7, 7] : List ℚ) ≠ [] := by
  constructor
  · norm_num [remove_outliers, listMean, listVar, maskFilter]
  · simp

/-- `DataFusionEngine.weighted_average` (lines 274-282). -/
def weighted_average (values weights : List ℚ) : ℚ :=
  if values = [] ∨ weights = [] then 0
  else
    let weighted_sum := ((values.zip weights).map (fun p => p.1 * p.2)).sum
    let weight_sum := weights.sum
    if 0 < weight_sum then weighted_sum / weight_sum else 0

/-- Helper: zipping a list with a constant-weight list of the same length
and summing the products gives the constant times the plain sum. -/
theorem zip_replicate_mul_sum (c : ℚ) (v : List ℚ) :
    ((v.zip (List.replicate v.length c)).map (fun p => p.1 * p.2)).sum =
      c * v.sum := by
  induction v with
  | nil => simp
  | cons x xs ih =>
    simp only [List.length_cons, List.replicate_succ, List.zip_cons_cons,
      List.map_cons, List.sum_cons, ih]
    ring

/-- C8: the weighted-average contract: 0 on empty inputs or a
non-positive weight sum; otherwise the ratio of the product sum to the
weight sum; the arithmetic mean for equal positive weights; and the exact
sample back for a single sample with positive weight. -/
theorem c8_weighted_average_contract :
    (∀ values weights : List ℚ,
      values = [] ∨ weights = [] ∨ weights.sum = 0 →
      weighted_average values weights = 0) ∧
    (∀ values weights : List ℚ, values ≠ [] → weights ≠ [] →
      0 < weights.sum →
      weighted_average values weights =
        ((values.zip weights).map (fun p => p.1 * p.2)).sum / weights.sum) ∧
    (∀ (values : List ℚ) (c : ℚ), 0 < c → values ≠ [] →
      weighted_average values (List.replicate values.length c) =
        values.sum / values.length) ∧
    (∀ x c : ℚ, 0 < c → weighted_average [x] [c] = x) := by
  refine ⟨?_, ?_, ?_, ?_⟩
  · intro v w h
    by_cases hv : v = []
    · simp [weighted_average, hv]
    · by_cases hw : w = []
      · simp [weighted_average, hw]
      · rcases h with h | h | h
        · exact absurd h hv
        · exact absurd h hw
        · simp [weighted_average, hv, hw, h]
  · intro v w hv hw hs
    simp only [weighted_average]
    rw [if_neg (by simp [hv, hw]), if_pos hs]
  · intro v c hc hv
    have hlen : v.length ≠ 0 := fun h => hv (List.length_eq_zero.mp h)
    have hlpos : (0 : ℚ) < v.length := by
      exact_mod_cast Nat.pos_of_ne_zero hlen
    have hsum : (List.replicate v.length c).sum = (v.length : ℚ) * c := by
      simp [List.sum_replicate, nsmul_eq_mul]
    simp only [weighted_average]
    rw [if_neg (by simp [hv, hlen]), if_pos (by rw [hsum]; positivity)]
    rw [zip_replicate_mul_sum, hsum, mul_comm (v.length : ℚ) c,
      mul_div_mul_left _ _ hc.ne']
  · intro x c hc
    simp [weighted_average, hc, hc.ne']

/-- C8 (witness): a single sample with positive weight is returned
exactly. -/
theorem c8_weighted_average_contract_witness :
    (0 : ℚ) < 2 ∧ weighted_average [7] [2] = 7 :=
  ⟨by norm_num, c8_weighted_average_contract.2.2.2 7 2 (by norm_num)⟩

/-- The reason component of the validator's verdict.  Each constructor
stands for one of the f-string messages of `validate_dimensions`, carrying
the same interpolated values. -/
inductive ValidationReason where
  | areaBelowMin (area min_area : ℚ) (room_type : String)
  | dimensionBelowMin (min_length : ℚ) (room_type : String)
  | heightBelowMin (height min_height : ℚ)
  | areaTooLarge (area : ℚ)
  | heightTooHigh (height : ℚ)
  | valid
deriving DecidableEq, Repr

/-- One row of the UDA standards table. -/
structure Standard where
  min_area : ℚ
  min_length : ℚ
  min_height : ℚ
deriving DecidableEq, Repr

/-- The standards table of `validate_dimensions` (lines 332-339), with the
`.get` fallback row for unknown room types (line 344). -/
def standards (room_type : String) : Standard :=
  if room_type = "master_bedroom" then ⟨9, 2.7, 2.75⟩
  else if room_type = "bedroom" then ⟨7.5, 2.4, 2.75⟩
  else if room_type = "living_room" then ⟨12, 3, 2.75⟩
  else if room_type = "kitchen" then ⟨5.5, 2.1, 2.75⟩
  else if room_type = "bathroom" then ⟨3, 1.5, 2.4⟩
  else if room_type = "toilet" then ⟨1.5, 1.2, 2.4⟩
  else ⟨2, 1.5, 2.4⟩

/-- `DataFusionEngine.validate_dimensions` (lines 328-365): sequential
checks, first failure wins. -/
def validate_dimensions (length_m width_m height_m : ℚ) (room_type : String) :
    Bool × ValidationReason :=
  let area := length_m * width_m
  let std := standards room_type
  if area < std.min_area then
    (false, ValidationReason.areaBelowMin area std.min_area room_type)
  else if min length_m width_m < std.min_length then
    (false, ValidationReason.dimensionBelowMin std.min_length room_type)
  else if height_m < std.min_height then
    (false, ValidationReason.heightBelowMin height_m std.min_height)
  else if 100 < area then
    (false, ValidationReason.areaTooLarge area)
  else if 5 < height_m then
    (false, ValidationReason.heightTooHigh height_m)
  else (true, ValidationReason.valid)

/-- C7: the validator passes exactly when all five conditions hold, the
first failing check in the order area-minimum, side-minimum,
height-minimum, area-ceiling, height-ceiling is the one reported, and the
concrete bathroom fused to area 2.0 with min side 1.0 fails with the
area-below-minimum reason (minimum 3.0). -/
theorem c7_validator_sequential :
    (∀ (l w h : ℚ) (t : String),
      (validate_dimensions l w h t).1 = true ↔
        ((standards t).min_area ≤ l * w ∧
         (standards t).min_length ≤ min l w ∧
         (standards t).min_height ≤ h ∧
         l * w ≤ 100 ∧ h ≤ 5)) ∧
    (∀ (l w h : ℚ) (t : String), l * w < (standards t).min_area →
      validate_dimensions l w h t =
        (false, ValidationReason.areaBelowMin (l * w) (standards t).min_area t)) ∧
    (∀ (l w h : ℚ) (t : String), (standards t).min_area ≤ l * w →
      min l w < (standards t).min_length →
      validate_dimensions l w h t =
        (false, ValidationReason.dimensionBelowMin (standards t).min_length t)) ∧
    (∀ (l w h : ℚ) (t : String), (standards t).min_area ≤ l * w →
      (standards t).min_length ≤ min l w → h < (standards t).min_height →
      validate_dimensions l w h t =
        (false, ValidationReason.heightBelowMin h (standards t).min_height)) ∧
    (∀ (l w h : ℚ) (t : String), (standards t).min_area ≤ l * w →
      (standards t).min_length ≤ min l w → (standards t).min_height ≤ h →
      100 < l * w →
      validate_dimensions l w h t =
        (false, ValidationReason.areaTooLarge (l * w))) ∧
    (∀ (l w h : ℚ) (t : String), (standards t).min_area ≤ l * w →
      (standards t).min_length ≤ min l w → (standards t).min_height ≤ h →
      l * w ≤ 100 → 5 < h →
      validate_dimensions l w h t =
        (false, ValidationReason.heightTooHigh h)) ∧
    validate_dimensions 2 1 2.5 "bathroom" =
      (false, ValidationReason.areaBelowMin 2 3 "bathroom") := by
  refine ⟨?_, ?_, ?_, ?_, ?_, ?_, ?_⟩
  · intro l w h t
    simp only [validate_dimensions]
    split_ifs with h1 h2 h3 h4 h5
    · simp only [Bool.false_eq_true, false_iff]
      rintro ⟨hA, -, -, -, -⟩; linarith
    · simp only [Bool.false_eq_true, false_iff]
      rintro ⟨-, hB, -, -, -⟩; linarith
    · simp only [Bool.false_eq_true, false_iff]
      rintro ⟨-, -, hC, -, -⟩; linarith
    · simp only [Bool.false_eq_true, false_iff]
      rintro ⟨-, -, -, hD, -⟩; linarith
    · simp only [Bool.false_eq_true, false_iff]
      rintro ⟨-, -, -, -, hE⟩; linarith
    · simp only [true_iff]
      exact ⟨not_lt.mp h1, not_lt.mp h2, not_lt.mp h3, not_lt.mp h4,
        not_lt.mp h5⟩
  · intro l w h t h1
    simp only [validate_dimensions]
    rw [if_pos h1]
  · intro l w h t h1 h2
    simp only [validate_dimensions]
    rw [if_neg (not_lt.mpr h1), if_pos h2]
  · intro l w h t h1 h2 h3
    simp only [validate_dimensions]
    rw [if_neg (not_lt.mpr h1), if_neg (not_lt.mpr h2), if_pos h3]
  · intro l w h t h1 h2 h3 h4
    simp only [validate_dimensions]
    rw [if_neg (not_lt.mpr h1), if_neg (not_lt.mpr h2),
      if_neg (not_lt.mpr h3), if_pos h4]
  · intro l w h t h1 h2 h3 h4 h5
    simp only [validate_dimensions]
    rw [if_neg (not_lt.mpr h1), if_neg (not_lt.mpr h2),
      if_neg (not_lt.mpr h3), if_neg (not_lt.mpr h4), if_pos h5]
  · have hstd : standards "bathroom" = Standard.mk 3 1.5 2.4 := by
      simp [standards]
    simp only [validate_dimensions, hstd]
    norm_num

/-- C7 (witness): the second sequential check, instantiated concretely — a
3m by 1.2m bathroom passes the area check but fails the minimum-side
check, which is the reason reported. -/
theorem c7_validator_sequential_witness :
    validate_dimensions 3 1.2 2.5 "bathroom" =
      (false, ValidationReason.dimensionBelowMin 1.5 "bathroom") := by
  have hstd : standards "bathroom" = Standard.mk 3 1.5 2.4 := by
    simp [standards]
  have h := c7_validator_sequential.2.2.1 3 1.2 2.5 "bathroom"
    (by rw [hstd]; norm_num) (by rw [hstd]; norm_num [min_def])
  rw [hstd] at h
  simpa using h

/-- The variance penalty of `calculate_measurement_confidence`
(lines 317-323): with more than one sample, the coefficient of variation
`cv = sqrt(variance) / mean` when the mean is positive and `1.0`
otherwise, capped as `min (cv * 0.2) 0.3`; with a single sample, `0.1`.
The square root forces this definition onto the reals. -/
noncomputable def variance_penalty (measurements : List ℝ) : ℝ :=
  if 1 < measurements.length then
    let mean := listMean measurements
    let variance := listVar measurements
    let cv := if 0 < mean then Real.sqrt variance / mean else 1
    min (cv * 0.2) 0.3
  else 0.1

/-- `DataFusionEngine.calculate_measurement_confidence` (lines 304-326). -/
noncomputable def calculate_measurement_confidence
    (measurements weights : List ℝ) (num_sources : ℕ) : ℝ :=
  if measurements.isEmpty then 0
  else
    let avg_weight := if weights.isEmpty then 0.5 else weights.sum / weights.length
    let source_bonus := min ((num_sources : ℝ) * 0.1) 0.3
    let confidence := avg_weight + source_bonus - variance_penalty measurements
    max 0 (min 1 confidence)

/-- The variance penalty as the claim words it, for comparison with the
code: the claim takes `cv` to be `0` when the mean of the filtered lengths
is `0`, where the code uses `1.0` whenever the mean is not positive. -/
noncomputable def variance_penalty_per_claim (measurements : List ℝ) : ℝ :=
  if 1 < measurements.length then
    let mean := listMean measurements
    let cv := if mean = 0 then 0 else Real.sqrt (listVar measurements) / mean
    min (0.2 * cv) 0.3
  else 0.1

/-- The confidence formula with the claim's variance penalty substituted. -/
noncomputable def calculate_measurement_confidence_per_claim
    (measurements weights : List ℝ) (num_sources : ℕ) : ℝ :=
  if measurements.isEmpty then 0
  else
    let avg_weight := if weights.isEmpty then 0.5 else weights.sum / weights.length
    let source_bonus := min ((num_sources : ℝ) * 0.1) 0.3
    let confidence :=
      avg_weight + source_bonus - variance_penalty_per_claim measurements
    max 0 (min 1 confidence)

/-- C4 (counterexample): on two filtered samples with mean 0 the code's
`cv` fallback is `1.0`, giving penalty `0.2` and confidence `0.5`, while
the claim's `cv = 0` fallback would give penalty `0` and confidence `0.7`:
the claim's formula disagrees with the code at this input. -/
theorem c4_counterexample :
    calculate_measurement_confidence [0, 0] [0.5, 0.5] 2 = 0.5 ∧
    calculate_measurement_confidence_per_claim [0, 0] [0.5, 0.5] 2 = 0.7 ∧
    calculate_measurement_confidence [0, 0] [0.5, 0.5] 2 ≠
      calculate_measurement_confidence_per_claim [0, 0] [0.5, 0.5] 2 := by
  have h1 : calculate_measurement_confidence [0, 0] [0.5, 0.5] 2 = 0.5 := by
    norm_num [calculate_measurement_confidence, variance_penalty, listMean,
      listVar, min_def, max_def]
  have h2 : calculate_measurement_confidence_per_claim [0, 0] [0.5, 0.5] 2
      = 0.7 := by
    norm_num [calculate_measurement_confidence_per_claim,
      variance_penalty_per_claim, listMean, listVar, min_def, max_def]
  refine ⟨h1, h2, ?_⟩
  rw [h1, h2]
  norm_num

/-- C4 (amended): the confidence is
`clamp(avg_weight + source_bonus - variance_penalty, 0, 1)` where, with
more than one filtered sample, the penalty is `min(0.2 * cv, 0.3)` with
`cv = stddev / mean` when the mean is positive and `cv = 1.0` otherwise
(so the penalty is `0.2` at mean 0, not `0`), and with exactly one sample
the penalty is the fixed `0.1`. -/
theorem c4_variance_penalty_amended :
    (∀ (m w : List ℝ) (n : ℕ), m ≠ [] →
      calculate_measurement_confidence m w n =
        max 0 (min 1 ((if w.isEmpty then 0.5 else w.sum / w.length) +
          min ((n : ℝ) * 0.1) 0.3 - variance_penalty m))) ∧
    (∀ m : List ℝ, 1 < m.length → 0 < listMean m →
      variance_penalty m =
        min (Real.sqrt (listVar m) / listMean m * 0.2) 0.3) ∧
    (∀ m : List ℝ, 1 < m.length → ¬ 0 < listMean m →
      variance_penalty m = 0.2) ∧
    (∀ m : List ℝ, ¬ 1 < m.length → variance_penalty m = 0.1) := by
  refine ⟨?_, ?_, ?_, ?_⟩
  · intro m w n hm
    unfold calculate_measurement_confidence
    rw [if_neg (by simpa using hm)]
  · intro m h1 h2
    unfold variance_penalty
    rw [if_pos h1]
    simp only [if_pos h2]
  · intro m h1 h2
    unfold variance_penalty
    rw [if_pos h1]
    simp only [if_neg h2]
    norm_num [min_def]
  · intro m h1
    unfold variance_penalty
    rw [if_neg h1]

/-- C4 (witness): the single-sample penalty, evaluated at one sample. -/
theorem c4_variance_penalty_amended_witness :
    (¬ 1 < ([(5 : ℝ)]).length) ∧ variance_penalty [(5 : ℝ)] = 0.1 :=
  ⟨by norm_num, c4_variance_penalty_amended.2.2.2 [(5 : ℝ)] (by norm_num)⟩

/-- C9: for non-empty filtered measurement and weight lists and any source
count, the confidence lies in the closed interval from 0 to 1 (the final
clamp guarantees it). -/
theorem c9_confidence_bounds (measurements weights : List ℝ)
    (num_sources : ℕ) (hm : measurements ≠ []) (hw : weights ≠ []) :
    0 ≤ calculate_measurement_confidence measurements weights num_sources ∧
    calculate_measurement_confidence measurements weights num_sources ≤ 1 := by
  unfold calculate_measurement_confidence
  rw [if_neg (by simpa using hm)]
  exact ⟨le_max_left 0 _, max_le (by norm_num) (min_le_left _ _)⟩

/-- C9 (witness): the bounds evaluated on a concrete single-sample,
single-weight input. -/
theorem c9_confidence_bounds_witness :
    ([(3 : ℝ)] ≠ []) ∧ ([(0.5 : ℝ)] ≠ []) ∧
    (0 ≤ calculate_measurement_confidence [3] [0.5] 1 ∧
     calculate_measurement_confidence [3] [0.5] 1 ≤ 1) :=
  ⟨by simp, by simp,
   c9_confidence_bounds [3] [0.5] 1 (by simp) (by simp)⟩

/-- Python truthiness of an optional numeric field:
`if dims.get('length_mm'):` is true exactly when the key is present with a
nonzero value. -/
def truthyNum (o : Option ℚ) : Bool :=
  match o with
  | none => false
  | some q => q != 0

/-- Python truthiness of an optional string field: present and non-empty. -/
def truthyStr (o : Option String) : Bool :=
  match o with
  | none => false
  | some s => s != ""

/-- The fixed source-reliability table `self.source_weights`
(lines 19-24), looked up with default `0.5` (line 208). -/
def source_weights (source : String) : ℚ :=
  if source = "ar_measurement" then 0.9
  else if source = "floor_plan" then 0.7
  else if source = "photos" then 0.6
  else if source = "voice_input" then 0.5
  else 0.5

/-- The four parallel sample lists accumulated by the collection loop of
`fuse_room_measurements`. -/
structure Samples where
  lengths : List ℚ
  widths : List ℚ
  heights : List ℚ
  weights : List ℚ
deriving DecidableEq, Repr

/-- The collection loop of `fuse_room_measurements` (lines 203-214),
written as filter-and-map: a member contributes to all four lists exactly
when its `length_mm` is truthy, with `width_mm` defaulting to 0 and
`height_mm` defaulting to 3000 when missing. -/
def collectMeasurements (room_group : List Member) : Samples :=
  let usable := room_group.filter (fun item => truthyNum item.data.length_mm)
  { lengths := usable.map (fun item => item.data.length_mm.getD 0)
    widths := usable.map (fun item => item.data.width_mm.getD 0)
    heights := usable.map (fun item => item.data.height_mm.getD 3000)
    weights := usable.map (fun item => source_weights item.source) }

/-- The room-type labels gathered at lines 216-217: one entry per member
with a truthy `type`, in group order. -/
def collectTypes (room_group : List Member) : List String :=
  room_group.filterMap (fun item =>
    if truthyStr item.data.type then item.data.type else none)

/-- The display names gathered at lines 218-219. -/
def collectNames (room_group : List Member) : List String :=
  room_group.filterMap (fun item =>
    if truthyStr item.data.name then item.data.name else none)

/-- Round-half-to-even to an integer, the rounding mode of Python's
built-in `round`, on the exact value. -/
def roundHalfEven {α : Type} [LinearOrderedField α] [FloorRing α]
    (x : α) : ℤ :=
  let f := ⌊x⌋
  let r := x - (f : α)
  if r < 1 / 2 then f
  else if 1 / 2 < r then f + 1
  else if f % 2 = 0 then f else f + 1

/-- Python's `round(x, 2)` on the exact value. -/
def pyRound2 {α : Type} [LinearOrderedField α] [FloorRing α] (x : α) : α :=
  ((roundHalfEven (x * 100) : ℤ) : α) / 100

/-- Python's `str.title()` restricted to space-separated words, as used on
the display-name fallback at line 236. -/
def pyTitle (s : String) : String :=
  String.intercalate " " ((s.splitOn " ").map (fun w => w.toLower.capitalize))

/-- The fused-room record assembled at lines 248-270.  The flat fields
mirror the nested `dimensions` and `fusion_metadata` dictionaries. -/
structure FusedRoom where
  id : String
  name : String
  type : String
  length_mm : ℚ
  width_mm : ℚ
  height_mm : ℚ
  length_m : ℚ
  width_m : ℚ
  height_m : ℚ
  area_sqm : ℚ
  sources_used : List String
  confidence : ℝ
  measurements_fused : ℕ
  is_valid : Bool
  validation_message : ValidationReason
  doors : List String
  windows : List String

/-- `DataFusionEngine.fuse_room_measurements` (lines 186-272).  `pick`
abstracts `max(set(room_types), key=room_types.count)` (line 235), whose
tie behaviour depends on Python's set iteration order; the rest is a
direct transliteration.  The ℚ sample lists are cast to ℝ for the
confidence computation, which involves a square root. -/
noncomputable def fuse_room_measurements (pick : List String → String)
    (room_group : List Member) : Option FusedRoom :=
  match room_group with
  | [] => none
  | first :: _ =>
    let s := collectMeasurements room_group
    let room_types := collectTypes room_group
    let room_names := collectNames room_group
    if s.lengths = [] then none
    else
      let cleaned := remove_outliers s.lengths s.widths s.heights s.weights
      let length_clean := cleaned.1
      let width_clean := cleaned.2.1
      let height_clean := cleaned.2.2.1
      let weights_clean := cleaned.2.2.2
      let fused_length := weighted_average length_clean weights_clean
      let fused_width := weighted_average width_clean weights_clean
      let fused_height := weighted_average height_clean weights_clean
      let room_type := if room_types = [] then "unknown" else pick room_types
      let room_name :=
        match room_names with
        | n :: _ => n
        | [] => pyTitle (room_type.replace "_" " ")
      let confidence := calculate_measurement_confidence
        (length_clean.map (fun q => (q : ℝ)))
        (weights_clean.map (fun q => (q : ℝ))) room_group.length
      let validation := validate_dimensions (fused_length / 1000)
        (fused_width / 1000) (fused_height / 1000) room_type
      some
        { id := "fused_" ++ first.data.id.getD "room"
          name := room_name
          type := room_type
          length_mm := pyRound2 fused_length
          width_mm := pyRound2 fused_width
          height_mm := pyRound2 fused_height
          length_m := pyRound2 (fused_length / 1000)
          width_m := pyRound2 (fused_width / 1000)
          height_m := pyRound2 (fused_height / 1000)
          area_sqm := pyRound2 ((fused_length * fused_width) / 1000000)
          sources_used := room_group.map Member.source
          confidence := pyRound2 confidence
          measurements_fused := length_clean.length
          is_valid := validation.1
          validation_message := validation.2
          doors := first.data.doors
          windows := first.data.windows }

/-- A room whose record has a length but no width and no height field. -/
def lengthOnlyRoom : Room := { blankRoom with length_mm := some 4000 }

/-- A room whose record has a width but no length field. -/
def widthOnlyRoom : Room := { blankRoom with width_mm := some 2500 }

/-- C5 (counterexample): a member missing `width_mm` is NOT skipped from
the width inputs — it contributes the default `0` (and `3000` for a
missing height); conversely a member whose `length_mm` is missing is
skipped from EVERY dimension, even ones it has (its `width_mm = 2500`
never reaches the width inputs).  Both directions refute "skipped from
that dimension only". -/
theorem c5_counterexample :
    (collectMeasurements [Member.mk "floor_plan" lengthOnlyRoom]).widths
      = [0] ∧
    (collectMeasurements [Member.mk "floor_plan" lengthOnlyRoom]).heights
      = [3000] ∧
    (collectMeasurements [Member.mk "ar_measurement" widthOnlyRoom]).widths
      = [] ∧
    widthOnlyRoom.width_mm = some 2500 := by
  refine ⟨?_, ?_, ?_, ?_⟩ <;>
    simp [collectMeasurements, lengthOnlyRoom, widthOnlyRoom, blankRoom,
      truthyNum]

/-- C5 (amended): a member with a falsy `length_mm` (missing or zero) is
dropped from all four sample lists; every other member contributes to all
four (defaulting a missing width to 0 and a missing height to 3000), so
the four lists always have one entry per member with a truthy length.
Malformed members never abort the run: fusion returns a record exactly
when the group is non-empty and at least one member has a truthy length. -/
theorem c5_missing_fields (pick : List String → String)
    (room_group : List Member) :
    ((collectMeasurements room_group).lengths.length =
       (room_group.filter
         (fun item => truthyNum item.data.length_mm)).length ∧
     (collectMeasurements room_group).widths.length =
       (room_group.filter
         (fun item => truthyNum item.data.length_mm)).length ∧
     (collectMeasurements room_group).heights.length =
       (room_group.filter
         (fun item => truthyNum item.data.length_mm)).length ∧
     (collectMeasurements room_group).weights.length =
       (room_group.filter
         (fun item => truthyNum item.data.length_mm)).length) ∧
    ((fuse_room_measurements pick room_group).isSome = true ↔
      room_group ≠ [] ∧ (collectMeasurements room_group).lengths ≠ []) := by
  constructor
  · refine ⟨?_, ?_, ?_, ?_⟩ <;> simp [collectMeasurements]
  · cases room_group with
    | nil => simp [fuse_room_measurements]
    | cons first rest =>
      simp only [fuse_room_measurements]
      by_cases h : (collectMeasurements (first :: rest)).lengths = []
      · rw [if_pos h]
        simp [h]
      · rw [if_neg h]
        simp [h]

/-- A single voice room used by the C3 witness. -/
def voiceRoomV : Room := { blankRoom with id := some "v1", type := some "bedroom" }

/-- Input with only the voice source non-empty. -/
def voiceOnlyInput : AllRooms :=
  { floor_plan := [], ar_measurement := [], voice_input := [voiceRoomV],
    photos := [] }

/-- C3 (witness): on a voice-only input the amended theorem yields the
singleton-group fallback, evaluated concretely. -/
theorem c3_anchor_priority_witness :
    match_rooms_across_sources voiceOnlyInput =
      [[Member.mk "voice_input" voiceRoomV]] := by
  have h := (c3_anchor_priority voiceOnlyInput).2.2.1 rfl rfl
  simpa using h

end DataFusion
